import Mathlib

/-
  Verification of the node-matlab session protocol and one-shot process layer.

  Shallow embedding of:
    - MatlabSession (src/session.ts): state machine, command queue, output
      framer, timeout and close paths;
    - executeMatlabScript / executeMatlabCommand (src/utils/process.ts):
      one-shot subprocess invocation, abort handling and exit classification;
    - parseError (src/errors.ts): textual error classification.

  Strings are modelled as `List Char`; asynchronous callbacks are modelled as
  explicit step functions from session states to session states plus a list of
  observable actions (stdin writes, promise settlements, process kills).
-/

set_option maxHeartbeats 1000000

namespace NodeMatlab

/-- Success sentinel printed by the interpreter after each session command. -/
def COMMAND_COMPLETE_MARKER : List Char := "__NODE_MATLAB_CMD_COMPLETE__".data

/-- Error sentinel recognised by the output framer. -/
def COMMAND_ERROR_MARKER : List Char := "__NODE_MATLAB_CMD_ERROR__".data

/-- SessionState from types.ts. -/
inductive SessionState
  | starting
  | ready
  | busy
  | closed
  | error
deriving DecidableEq, Repr

/-- MatlabErrorType from types.ts.  The source value named after the grammar
error category is rendered here as `synErr`. -/
inductive MatlabErrorType
  | synErr
  | runtime
  | timeout
  | not_installed
  | toolbox_missing
  | file_not_found
  | permission_denied
  | out_of_memory
  | index_error
  | dimension_mismatch
  | unknown
deriving DecidableEq, Repr

/-- MatlabError (errors.ts): classification type, message, and the timeout
value carried by MatlabTimeoutError.  Positional metadata (line numbers,
stack) is not modelled; no claim mentions it. -/
structure MatlabErr where
  type : MatlabErrorType
  message : List Char
  timeoutMs : Option Nat := none
deriving DecidableEq, Repr

/-- MatlabTimeoutError(timeout) from errors.ts. -/
def MatlabTimeoutError (t : Nat) : MatlabErr :=
  { type := .timeout
  , message := ("MATLAB command timed out after ".data) ++ (Nat.repr t).data ++ ("ms".data)
  , timeoutMs := some t }

/-- MatlabAbortError from errors.ts (type 'unknown'). -/
def MatlabAbortError : MatlabErr :=
  { type := .unknown, message := "MATLAB execution was aborted".data }

/-- new MatlabError('Session closed') used by MatlabSession.close. -/
def sessionClosedError : MatlabErr :=
  { type := .unknown, message := "Session closed".data }

/-- JavaScript whitespace class (ASCII part), used by trim and the regex
character class in the source. -/
def isWS (c : Char) : Bool :=
  c == ' ' || c == '\t' || c == '\n' || c == '\r' || c == '\x0b' || c == '\x0c'

/-- String.prototype.trim. -/
def trimList (l : List Char) : List Char :=
  ((l.dropWhile isWS).reverse.dropWhile isWS).reverse

/-- String.prototype.includes: substring containment. -/
def containsSub : List Char → List Char → Bool
  | [], pat => pat.isEmpty
  | s@(_ :: t), pat => pat.isPrefixOf s || containsSub t pat

theorem containsSub_iff (s pat : List Char) : containsSub s pat = true ↔ pat <:+: s := by
  induction s with
  | nil =>
    simp [containsSub, List.isEmpty_iff, List.infix_nil]
  | cons c t ih =>
    simp [containsSub, List.infix_cons_iff, ih, List.isPrefixOf_iff_prefix]

/-- output.toLowerCase().includes('error'). -/
def lowerContainsError (l : List Char) : Bool :=
  containsSub (l.map Char.toLower) ("error".data)

/-- p.replace(/'/g, "''") used when splicing paths into interpreter source. -/
def escapeQuotes (p : List Char) : List Char :=
  p.flatMap (fun c => if c = '\'' then ['\'', '\''] else [c])

/-- JS \w character class. -/
def isWordChar (c : Char) : Bool := c.isAlphanum || c == '_'

/-- Attempt the /Undefined function or variable '(\w+)'/i match at the head of
the list; returns the captured word on success. -/
def tryUndefAt (l : List Char) : Option (List Char) :=
  let lit := "undefined function or variable '".data
  if lit.isPrefixOf ((l.take lit.length).map Char.toLower) then
    let after := l.drop lit.length
    let w := after.takeWhile isWordChar
    if w ≠ [] ∧ (after.drop w.length).head? = some '\'' then some w else none
  else none

/-- Scan for the first position where /Undefined function or variable '(\w+)'/i
matches; returns the capture. -/
def findUndefCapture : List Char → Option (List Char)
  | [] => none
  | c :: rest =>
    match tryUndefAt (c :: rest) with
    | some w => some w
    | none => findUndefCapture rest

/-- First match of /'([^']+)'/: the first non-empty single-quoted substring. -/
def firstQuoted : List Char → Option (List Char)
  | [] => none
  | '\'' :: rest =>
    let inner := rest.takeWhile (fun c => c ≠ '\'')
    if inner ≠ [] ∧ (rest.drop inner.length).head? = some '\'' then some inner
    else firstQuoted rest
  | _ :: rest => firstQuoted rest

/-- parseError (errors.ts): sequential substring checks on the lower-cased
output, falling through to a runtime classification.  Branches that return
only when a regex capture succeeds carry that capture condition. -/
def parseError (output : List Char) : MatlabErr :=
  let lowerOutput := output.map Char.toLower
  let inc : List Char → Bool := fun pat => containsSub lowerOutput pat
  if inc ("syntax error".data) || inc ("parse error".data) then
    { type := .synErr, message := output }
  else if inc ("out of memory".data) || inc ("java.lang.outofmemoryerror".data)
      || inc ("not enough memory".data) then
    { type := .out_of_memory, message := output }
  else if inc ("index exceeds".data) || inc ("index out of bounds".data)
      || inc ("array indices must be positive integers".data)
      || inc ("index must be a positive integer".data)
      || inc ("subscript indices must".data) then
    { type := .index_error, message := output }
  else if inc ("matrix dimensions must agree".data) || inc ("dimensions do not match".data)
      || inc ("inner matrix dimensions must agree".data)
      || inc ("dimensions must be consistent".data) then
    { type := .dimension_mismatch, message := output }
  else if inc ("permission denied".data) || inc ("access is denied".data)
      || inc ("cannot write to".data) || inc ("cannot read from".data) then
    { type := .permission_denied, message := output }
  else if inc ("undefined function or variable".data) ∧ (findUndefCapture output).isSome then
    { type := .runtime
    , message := ("Undefined function or variable: ".data)
        ++ ((findUndefCapture output).getD []) }
  else if inc ("license".data) && inc ("error".data) then
    { type := .toolbox_missing, message := output }
  else if (inc ("file not found".data) || inc ("does not exist".data)
      || inc ("unable to read file".data) || inc ("no such file or directory".data))
      ∧ (firstQuoted output).isSome then
    { type := .file_not_found, message := output }
  else if (inc ("path not found".data) || inc ("directory not found".data))
      ∧ (firstQuoted output).isSome then
    { type := .file_not_found, message := output }
  else
    { type := .runtime, message := output }

/-- str.replace(pat, ''): remove the first occurrence of a literal pattern. -/
def replaceFirst (pat : List Char) : List Char → List Char
  | [] => []
  | c :: rest =>
    if pat.isPrefixOf (c :: rest) then (c :: rest).drop pat.length
    else c :: replaceFirst pat rest

/-- str.replace(/^>>\s*\/gm, ''): remove every interpreter prompt occurring at
a line start together with the following whitespace run.  The boolean tracks
whether the current position is a line start (start of string or just after a
newline, with consumed whitespace counting as source text). -/
def stripPrompts : Bool → List Char → List Char
  | _, [] => []
  | atLS, '>' :: '>' :: rest =>
    if atLS then
      stripPrompts ((rest.takeWhile isWS).getLast? == some '\n') (rest.dropWhile isWS)
    else '>' :: stripPrompts false ('>' :: rest)
  | _, c :: rest => c :: stripPrompts (c == '\n') rest
termination_by _ l => l.length
decreasing_by
  all_goals simp_wf
  all_goals
    have h1 : (rest.dropWhile isWS).length ≤ rest.length :=
      (List.dropWhile_suffix isWS).length_le
    omega

/-- Output extraction in MatlabSession.processCommandComplete: strip both
sentinel markers (first occurrence each), the prompt substrings, and trim. -/
def extractedOutput (cur : List Char) : List Char :=
  trimList (stripPrompts true
    (replaceFirst COMMAND_ERROR_MARKER (replaceFirst COMMAND_COMPLETE_MARKER cur)))

/-- SessionOptions from types.ts (cwd is only forwarded to spawn and is not
modelled; timeout defaults to 30000 as in the MatlabSession constructor). -/
structure SessionOptions where
  timeout : Nat := 30000
  addPath : List (List Char) := []
  keepAlive : Bool := true
deriving DecidableEq, Repr

/-- One entry of MatlabSession.commandQueue.  `pid` identifies the promise
(resolve/reject channel) created by `run`; `hasTimeout` records whether a
timer was armed for it. -/
structure Pending where
  command : List Char
  pid : Nat
  hasTimeout : Bool
  startTime : Nat
deriving DecidableEq, Repr

/-- MatlabResult from types.ts. -/
structure MatlabResultR where
  output : List Char
  exitCode : Int
  duration : Nat
  warnings : Option (List (List Char)) := none
deriving DecidableEq, Repr

/-- Observable side effects of the session machinery: a write to the
subprocess stdin, a promise settlement, or a SIGKILL of the subprocess. -/
inductive Action
  | stdinWrite (payload : List Char)
  | resolveP (pid : Nat) (res : MatlabResultR)
  | rejectP (pid : Nat) (err : MatlabErr)
  | killProc
deriving DecidableEq, Repr

/-- The mutable fields of MatlabSession. -/
structure Session where
  state : SessionState
  commandQueue : List Pending
  currentOutput : List Char
  currentError : List Char
  options : SessionOptions
deriving DecidableEq, Repr

/-- The instruction suffix appended to every session command: a newline, then
a disp call printing the success sentinel, then a newline. -/
def sentinelSuffix : List Char :=
  "\ndisp(".data ++ ['\''] ++ COMMAND_COMPLETE_MARKER ++ ['\''] ++ ");\n".data

/-- The wrapped payload MatlabSession.processQueue writes to stdin. -/
def wrappedCommand (cmd : List Char) : List Char := cmd ++ sentinelSuffix

/-- MatlabSession.processQueue: if ready and the queue is non-empty, mark the
session busy and write the head command (wrapped) to stdin. -/
def processQueue (s : Session) : Session × List Action :=
  if s.state = .ready then
    match s.commandQueue with
    | [] => (s, [])
    | next :: _ =>
      ({ s with state := .busy }, [Action.stdinWrite (wrappedCommand next.command)])
  else (s, [])

/-- MatlabSession.processCommandComplete: shift the queue head, extract the
captured output, reset both buffers, return to ready, settle the pending
command, then immediately process the next queued command. -/
def processCommandComplete (s : Session) (hasError : Bool) (now : Nat) :
    Session × List Action :=
  match s.commandQueue with
  | [] => (s, [])
  | pending :: rest =>
    let duration := now - pending.startTime
    let output := extractedOutput s.currentOutput
    let error := s.currentError
    let settle : Action :=
      if hasError || lowerContainsError error then
        Action.rejectP pending.pid (parseError (if error = [] then output else error))
      else
        Action.resolveP pending.pid { output := output, exitCode := 0, duration := duration }
    let s' : Session :=
      { s with commandQueue := rest, currentOutput := [], currentError := [], state := .ready }
    let next := processQueue s'
    (next.1, settle :: next.2)

/-- Sentinel dispatch in MatlabSession.handleOutput: complete marker checked
first, then the error marker; `some hasError` when a sentinel is present. -/
def completionSignal (buf : List Char) : Option Bool :=
  if containsSub buf COMMAND_COMPLETE_MARKER then some false
  else if containsSub buf COMMAND_ERROR_MARKER then some true
  else none

/-- MatlabSession.handleOutput: append the chunk to the output buffer and run
command completion if a sentinel is now present. -/
def handleOutput (s : Session) (chunk : List Char) (now : Nat) : Session × List Action :=
  let s1 := { s with currentOutput := s.currentOutput ++ chunk }
  match completionSignal s1.currentOutput with
  | some hasError => processCommandComplete s1 hasError now
  | none => (s1, [])

/-- The stderr data handler installed by setupEventHandlers. -/
def handleStderr (s : Session) (chunk : List Char) : Session :=
  { s with currentError := s.currentError ++ chunk }

/-- Printable name of a session state (template literal in run/start). -/
def sessionStateName : SessionState → List Char
  | .starting => "starting".data
  | .ready => "ready".data
  | .busy => "busy".data
  | .closed => "closed".data
  | .error => "error".data

/-- Result of a `run` call: synchronous throw, or a pending promise. -/
inductive RunOutcome
  | thrown (message : List Char)
  | pending (pid : Nat)
deriving DecidableEq, Repr

/-- MatlabSession.run: throw on closed/error state, otherwise enqueue a
pending command (arming a timer when options.timeout > 0) and, if the session
is ready, start processing the queue.  `pid` is the fresh promise identity,
`now` is Date.now() at submission. -/
def run (s : Session) (command : List Char) (pid : Nat) (now : Nat) :
    Session × List Action × RunOutcome :=
  if s.state = .closed ∨ s.state = .error then
    (s, [], .thrown ("Session is ".data ++ sessionStateName s.state))
  else
    let p : Pending :=
      { command := command, pid := pid
      , hasTimeout := decide (0 < s.options.timeout), startTime := now }
    let s1 := { s with commandQueue := s.commandQueue ++ [p] }
    if s1.state = .ready then
      let next := processQueue s1
      (next.1, next.2, .pending pid)
    else (s1, [], .pending pid)

/-- The timer callback armed by MatlabSession.run for the command text
`command` whose own promise is `pid`: find the first queue entry with equal
command text, splice it out if found, and reject this promise with a timeout
error carrying options.timeout. -/
def timeoutFire (s : Session) (command : List Char) (pid : Nat) : Session × List Action :=
  let idx := s.commandQueue.findIdx (fun c => c.command == command)
  let s' :=
    if idx < s.commandQueue.length then
      { s with commandQueue := s.commandQueue.eraseIdx idx }
    else s
  (s', [Action.rejectP pid (MatlabTimeoutError s.options.timeout)])

/-- MatlabSession.close: no-op when already closed; otherwise reject every
pending command with the session-closed error, empty the queue, write "quit"
to stdin, and either observe the process close within the 5 s grace period or
force-kill it.  The final boolean is the close promise outcome; the executor
only ever calls resolve, so it is always `true`. -/
def close (s : Session) (processClosesInGrace : Bool) : Session × List Action × Bool :=
  if s.state = .closed then (s, [], true)
  else
    let rejects := s.commandQueue.map (fun p => Action.rejectP p.pid sessionClosedError)
    let s1 := { s with commandQueue := [], state := .closed }
    if processClosesInGrace then
      (s1, rejects ++ [Action.stdinWrite ("quit\n".data)], true)
    else
      (s1, rejects ++ [Action.stdinWrite ("quit\n".data), Action.killProc], true)

/-- The process 'close' handler installed in MatlabSession.start, on the path
taken after startup completed: it only sets the state to closed (and emits
events); it does not touch the command queue or settle any pending promise. -/
def onProcessClose (s : Session) : Session × List Action :=
  ({ s with state := .closed }, [])

/-- Externally observable session events used for whole-trace properties:
a run submission, a stdout chunk, a stderr chunk. -/
inductive SessEvent
  | runE (cmd : List Char) (now : Nat)
  | outE (chunk : List Char) (now : Nat)
  | errE (chunk : List Char)

/-- A freshly started session (state after a successful start()). -/
def mkSession (opts : SessionOptions) : Session :=
  { state := .ready, commandQueue := [], currentOutput := []
  , currentError := [], options := opts }

/-- One event step; the Nat counter allocates fresh promise identities for
submissions (run throws before creating a promise, so a throw allocates
nothing). -/
def stepEvent : Session × Nat → SessEvent → (Session × Nat) × List Action
  | (s, n), .runE cmd now =>
    match run s cmd n now with
    | (s', acts, RunOutcome.thrown _) => ((s', n), acts)
    | (s', acts, RunOutcome.pending _) => ((s', n + 1), acts)
  | (s, n), .outE chunk now =>
    let r := handleOutput s chunk now
    ((r.1, n), r.2)
  | (s, n), .errE chunk => ((handleStderr s chunk, n), [])

/-- Fold step accumulating the actions of successive events. -/
def traceStep (acc : (Session × Nat) × List Action) (ev : SessEvent) :
    (Session × Nat) × List Action :=
  let r := stepEvent acc.1 ev
  (r.1, acc.2 ++ r.2)

/-- Run a whole event trace from a freshly started session, accumulating the
emitted actions in order. -/
def runTrace (opts : SessionOptions) (evs : List SessEvent) : (Session × Nat) × List Action :=
  evs.foldl traceStep ((mkSession opts, 0), [])

/-- Promise identities settled (resolved or rejected) in an action list, in
emission order. -/
def settledIds (acts : List Action) : List Nat :=
  acts.filterMap (fun a =>
    match a with
    | Action.resolveP i _ => some i
    | Action.rejectP i _ => some i
    | _ => none)

/-- MatlabOptions from types.ts, restricted to the fields the one-shot code
reads (signal = some b models a provided AbortSignal with aborted = b at the
moment the executor runs). -/
structure MatlabOptionsM where
  timeout : Nat := 0
  addPath : List (List Char) := []
  signal : Option Bool := none
deriving DecidableEq, Repr

/-- The addpath command prefix built in buildMatlabArgs and
executeMatlabCommand. -/
def addPathCommands (paths : List (List Char)) : List Char :=
  List.intercalate (" ".data)
    (paths.map (fun p =>
      "addpath(".data ++ ['\''] ++ escapeQuotes p ++ ['\''] ++ ");".data))

/-- buildMatlabArgs from process.ts. -/
def buildMatlabArgs (scriptPath : List Char) (addPath : List (List Char)) :
    List (List Char) :=
  let command :=
    (if addPath ≠ [] then addPathCommands addPath ++ (" ".data) else [])
      ++ "run(".data ++ ['\''] ++ escapeQuotes scriptPath ++ ['\''] ++ ");".data
  ["-nosplash".data, "-nodesktop".data, "-batch".data, command]

/-- Observable effects of the one-shot executor. -/
inductive OneShotAction
  | spawnProc (args : List (List Char))
  | stdinWrite (payload : List Char)
  | killProc
deriving DecidableEq, Repr

/-- Effects of the synchronous part of the one-shot promise executor, plus
the rejection issued synchronously (before any process event), if any. -/
structure OneShotStart where
  actions : List OneShotAction
  earlyReject : Option MatlabErr
deriving DecidableEq, Repr

/-- executeMatlabScript, synchronous executor part: spawn first, then check
the abort signal; if it is already aborted, kill the just-spawned process and
reject with MatlabAbortError. -/
def executeMatlabScriptStart (scriptPath : List Char) (opts : MatlabOptionsM) :
    OneShotStart :=
  let args := buildMatlabArgs scriptPath opts.addPath
  match opts.signal with
  | some true =>
    { actions := [.spawnProc args, .killProc], earlyReject := some MatlabAbortError }
  | _ => { actions := [.spawnProc args], earlyReject := none }

/-- executeMatlabCommand, synchronous executor part (same abort structure,
different argument assembly). -/
def executeMatlabCommandStart (command : List Char) (opts : MatlabOptionsM) :
    OneShotStart :=
  let fullCommand :=
    (if opts.addPath ≠ [] then addPathCommands opts.addPath ++ (" ".data) else []) ++ command
  let args := ["-nosplash".data, "-nodesktop".data, "-batch".data, fullCommand]
  match opts.signal with
  | some true =>
    { actions := [.spawnProc args, .killProc], earlyReject := some MatlabAbortError }
  | _ => { actions := [.spawnProc args], earlyReject := none }

/-- The /^>\s*in\s+/i warning-context pattern from process.ts. -/
def warnContext (l : List Char) : Bool :=
  match l with
  | '>' :: rest =>
    match rest.dropWhile isWS with
    | a :: b :: c :: _ => a.toLower == 'i' && b.toLower == 'n' && isWS c
    | _ => false
  | _ => false

/-- WARNING_PATTERNS.some(p => p.test(trimmedLine)). -/
def isWarningLine (trimmed : List Char) : Bool :=
  let lower := trimmed.map Char.toLower
  containsSub lower ("warning:".data) || containsSub lower ("deprecated".data)
    || containsSub lower ("will be removed".data) || containsSub lower ("obsolete".data)
    || containsSub lower ("not recommended".data) || warnContext trimmed

/-- Loop state of extractWarnings. -/
structure WarnState where
  warnings : List (List Char)
  inWarningBlock : Bool
  currentWarning : List Char
deriving DecidableEq, Repr

/-- One iteration of the extractWarnings line loop. -/
def warnStep (st : WarnState) (line : List Char) : WarnState :=
  let trimmedLine := trimList line
  if isWarningLine trimmedLine then
    { warnings :=
        if st.currentWarning ≠ [] then st.warnings ++ [trimList st.currentWarning]
        else st.warnings
    , inWarningBlock := true, currentWarning := trimmedLine }
  else if st.inWarningBlock then
    if trimmedLine.head? = some '>' || ("In ".data).isPrefixOf trimmedLine then
      { st with currentWarning := st.currentWarning ++ '\n' :: trimmedLine }
    else
      { warnings :=
          if st.currentWarning ≠ [] then st.warnings ++ [trimList st.currentWarning]
          else st.warnings
      , inWarningBlock := false, currentWarning := [] }
  else st

/-- extractWarnings from process.ts. -/
def extractWarnings (output : List Char) : List (List Char) :=
  let lines := output.splitOn '\n'
  let final := lines.foldl warnStep
    { warnings := [], inWarningBlock := false, currentWarning := [] }
  if final.currentWarning ≠ [] then final.warnings ++ [trimList final.currentWarning]
  else final.warnings

/-- Match of /ans\s*=\s*\n?\n?/ at the head of the list (the trailing \n?\n?
is absorbed by the greedy \s*); returns the remainder after the match. -/
def matchAnsAt (l : List Char) : Option (List Char) :=
  match l with
  | 'a' :: 'n' :: 's' :: rest =>
    match rest.dropWhile isWS with
    | '=' :: r2 => some (r2.dropWhile isWS)
    | _ => none
  | _ => none

/-- str.replace(/^ans\s*=\s*\n?\n?/m, ''): remove the first line-start match. -/
def removeAnsPrefix : Bool → List Char → List Char
  | _, [] => []
  | atLS, c :: rest =>
    if atLS then
      match matchAnsAt (c :: rest) with
      | some rem => rem
      | none => c :: removeAnsPrefix (c == '\n') rest
    else c :: removeAnsPrefix (c == '\n') rest

/-- str.replace(/^\s*\n/, ''): remove the leading whitespace prefix up to and
including its last newline, when the leading whitespace contains one. -/
def removeLeadingWSNewline (l : List Char) : List Char :=
  let w := l.takeWhile isWS
  match w.reverse.findIdx? (fun c => c == '\n') with
  | some j => l.drop (w.length - j)
  | none => l

/-- cleanOutput from process.ts. -/
def cleanOutput (output : List Char) : List Char :=
  trimList (removeLeadingWSNewline (removeAnsPrefix true output))

/-- Settlement of a one-shot execution promise. -/
inductive OneShotOutcome
  | resolved (r : MatlabResultR)
  | rejected (e : MatlabErr)
deriving DecidableEq, Repr

/-- The process 'close' handler shared (textually duplicated) by
executeMatlabScript and executeMatlabCommand: reject on abort, classify by
exit code (null coalesced to 0) and stderr content, otherwise resolve with
the cleaned output and collected warnings. -/
def oneShotOnClose (aborted : Bool) (code : Option Int) (stdout stderr : List Char)
    (startTime now : Nat) : OneShotOutcome :=
  let duration := now - startTime
  if aborted then .rejected MatlabAbortError
  else
    let exitCode : Int := code.getD 0
    let output := trimList stdout
    let warnings := extractWarnings (stderr ++ stdout)
    if exitCode ≠ 0 ∨ lowerContainsError stderr then
      .rejected (parseError (if stderr = [] then stdout else stderr))
    else
      .resolved { output := cleanOutput output, exitCode := exitCode, duration := duration
                , warnings := if warnings ≠ [] then some warnings else none }

theorem settledIds_append (a b : List Action) :
    settledIds (a ++ b) = settledIds a ++ settledIds b := by
  simp [settledIds, List.filterMap_append]

theorem processQueue_commandQueue (s : Session) :
    (processQueue s).1.commandQueue = s.commandQueue := by
  unfold processQueue
  split
  · split <;> rfl
  · rfl

theorem processQueue_buffers (s : Session) :
    (processQueue s).1.currentOutput = s.currentOutput ∧
    (processQueue s).1.currentError = s.currentError := by
  unfold processQueue
  split
  · split <;> exact ⟨rfl, rfl⟩
  · exact ⟨rfl, rfl⟩

theorem settledIds_processQueue (s : Session) : settledIds (processQueue s).2 = [] := by
  unfold processQueue
  split
  · split <;> rfl
  · rfl

/-- C8: calling run on a session whose state is closed or error throws a
state error immediately; the session (in particular its command queue) is
returned unchanged and no action (no enqueue, no write, no settlement) is
performed. -/
theorem run_throws_in_terminal_state (s : Session) (cmd : List Char) (pid now : Nat)
    (h : s.state = SessionState.closed ∨ s.state = SessionState.error) :
    run s cmd pid now =
      (s, [], RunOutcome.thrown ("Session is ".data ++ sessionStateName s.state)) := by
  unfold run
  rw [if_pos h]

/-- Witness for C8: a concrete closed session. -/
def closedSession : Session := { mkSession {} with state := SessionState.closed }

theorem run_throws_in_terminal_state_witness :
    run closedSession ("x = 1;".data) 0 0 =
      (closedSession, [],
        RunOutcome.thrown ("Session is ".data ++ sessionStateName closedSession.state)) :=
  run_throws_in_terminal_state closedSession ("x = 1;".data) 0 0 (Or.inl rfl)

/-- C2 (code bug exhibit): the process 'close' handler taken after startup
only transitions the session to the closed state; it does not reject or
otherwise settle any pending command, and leaves the queue intact, so a
command pending at unexpected process exit is never resolved. -/
theorem processClose_leaves_pending_unsettled (s : Session) :
    (onProcessClose s).1.state = SessionState.closed ∧
    (onProcessClose s).1.commandQueue = s.commandQueue ∧
    (onProcessClose s).2 = [] ∧
    settledIds (onProcessClose s).2 = [] :=
  ⟨rfl, rfl, rfl, rfl⟩

/-- C5: closing a session that is not already closed rejects every pending
command with the session-closed error (in queue order), empties the queue,
writes the quit instruction, force-kills the process exactly when it did not
exit within the grace period, ends in the closed state, and the close
promise always resolves (for every session and grace outcome). -/
theorem close_drains_queue (s : Session) (b : Bool)
    (h : s.state ≠ SessionState.closed) :
    (close s b).1.commandQueue = [] ∧
    (close s b).1.state = SessionState.closed ∧
    (close s b).2.1 =
      s.commandQueue.map (fun p => Action.rejectP p.pid sessionClosedError)
        ++ (if b then [Action.stdinWrite ("quit\n".data)]
            else [Action.stdinWrite ("quit\n".data), Action.killProc]) ∧
    (∀ (t : Session) (b' : Bool), (close t b').2.2 = true) := by
  refine ⟨?_, ?_, ?_, ?_⟩
  · unfold close; rw [if_neg h]; split <;> rfl
  · unfold close; rw [if_neg h]; split <;> rfl
  · unfold close; rw [if_neg h]; cases b <;> simp
  · intro t b'
    unfold close
    split
    · rfl
    · split <;> rfl

/-- Witness for C5: a busy session with two pending commands, grace period
expired (force-kill path). -/
def busySession : Session :=
  { state := SessionState.busy
  , commandQueue :=
      [ { command := "a;".data, pid := 0, hasTimeout := true, startTime := 0 }
      , { command := "b;".data, pid := 1, hasTimeout := true, startTime := 1 } ]
  , currentOutput := "partial".data, currentError := []
  , options := {} }

theorem close_drains_queue_witness :
    (close busySession false).1.commandQueue = [] ∧
    (close busySession false).1.state = SessionState.closed ∧
    (close busySession false).2.1 =
      busySession.commandQueue.map (fun p => Action.rejectP p.pid sessionClosedError)
        ++ (if false then [Action.stdinWrite ("quit\n".data)]
            else [Action.stdinWrite ("quit\n".data), Action.killProc]) ∧
    (∀ (t : Session) (b' : Bool), (close t b').2.2 = true) :=
  close_drains_queue busySession false (by decide)

/-- C6: command completion resets both accumulation buffers to empty (the
next command, if any, is written by processQueue from that reset state, and
processQueue never touches the buffers); consequently the post-completion
session state is entirely independent of the buffers accumulated for the
completed command, so none of its text can reach the next command's capture. -/
theorem buffers_reset_before_next_command (s₁ s₂ : Session) (e₁ e₂ : Bool) (n₁ n₂ : Nat)
    (hq : s₁.commandQueue = s₂.commandQueue)
    (hopt : s₁.options = s₂.options)
    (hne : s₁.commandQueue ≠ []) :
    (processCommandComplete s₁ e₁ n₁).1.currentOutput = [] ∧
    (processCommandComplete s₁ e₁ n₁).1.currentError = [] ∧
    (processCommandComplete s₁ e₁ n₁).1 = (processCommandComplete s₂ e₂ n₂).1 ∧
    (∀ t : Session, (processQueue t).1.currentOutput = t.currentOutput ∧
      (processQueue t).1.currentError = t.currentError) := by
  obtain ⟨p, rest, hps⟩ : ∃ p rest, s₁.commandQueue = p :: rest := by
    cases hcq : s₁.commandQueue with
    | nil => exact absurd hcq hne
    | cons p rest => exact ⟨p, rest, rfl⟩
  have hps₂ : s₂.commandQueue = p :: rest := hq ▸ hps
  refine ⟨?_, ?_, ?_, processQueue_buffers⟩
  · unfold processCommandComplete
    rw [hps]
    exact (processQueue_buffers _).1
  · unfold processCommandComplete
    rw [hps]
    exact (processQueue_buffers _).2
  · unfold processCommandComplete
    rw [hps, hps₂]
    simp only
    congr 1
    simp [hopt]

/-- Witness for C6: two sessions with the same single-element queue but
different buffers and completion flags land in identical post-states with
empty buffers. -/
def completeSessA : Session :=
  { state := SessionState.busy
  , commandQueue := [{ command := "a;".data, pid := 3, hasTimeout := false, startTime := 0 }]
  , currentOutput := ("old output __NODE_MATLAB_CMD_COMPLETE__".data)
  , currentError := "Error: boom".data
  , options := {} }

def completeSessB : Session :=
  { completeSessA with currentOutput := [], currentError := [] }

theorem buffers_reset_before_next_command_witness :
    (processCommandComplete completeSessA true 7).1.currentOutput = [] ∧
    (processCommandComplete completeSessA true 7).1.currentError = [] ∧
    (processCommandComplete completeSessA true 7).1 =
      (processCommandComplete completeSessB false 9).1 ∧
    (∀ t : Session, (processQueue t).1.currentOutput = t.currentOutput ∧
      (processQueue t).1.currentError = t.currentError) :=
  buffers_reset_before_next_command completeSessA completeSessB true false 7 9 rfl rfl
    (by decide)

/-- C4: on sentinel detection the completed command is settled by the first
emitted action; it is a rejection exactly when the error sentinel matched
(hasError) or the stderr buffer contains "error" case-insensitively, and any
rejection payload is parseError applied to the stderr buffer when non-empty,
else to the extracted stdout capture. -/
theorem completion_failure_classification (s : Session) (p : Pending) (rest : List Pending)
    (hasError : Bool) (now : Nat) (hq : s.commandQueue = p :: rest) :
    ((∃ e, ((processCommandComplete s hasError now).2).head? = some (Action.rejectP p.pid e))
        ↔ (hasError = true ∨ lowerContainsError s.currentError = true)) ∧
    (∀ e, ((processCommandComplete s hasError now).2).head? = some (Action.rejectP p.pid e) →
        e = parseError (if s.currentError = [] then extractedOutput s.currentOutput
                        else s.currentError)) := by
  unfold processCommandComplete
  rw [hq]
  simp only [List.head?_cons]
  by_cases hcond : (hasError || lowerContainsError s.currentError) = true
  · rw [if_pos hcond]
    rw [Bool.or_eq_true] at hcond
    constructor
    · exact ⟨fun _ => hcond, fun _ => ⟨_, rfl⟩⟩
    · intro e he
      injection he with h1
      injection h1 with _ h2
      exact h2.symm
  · rw [if_neg hcond]
    rw [Bool.or_eq_true] at hcond
    constructor
    · constructor
      · rintro ⟨e, he⟩
        simp at he
      · intro h
        exact absurd h hcond
    · intro e he
      simp at he

/-- Witness for C4: a session whose stderr buffer contains an error text;
the completion is a rejection carrying parseError of that stderr buffer. -/
def failSess : Session :=
  { state := SessionState.busy
  , commandQueue := [{ command := "oops".data, pid := 5, hasTimeout := false, startTime := 2 }]
  , currentOutput := "x\n__NODE_MATLAB_CMD_COMPLETE__".data
  , currentError := "Error: something bad".data
  , options := {} }

theorem completion_failure_classification_witness :
    ((∃ e, ((processCommandComplete failSess false 9).2).head? = some (Action.rejectP 5 e))
        ↔ (false = true ∨ lowerContainsError failSess.currentError = true)) ∧
    (∀ e, ((processCommandComplete failSess false 9).2).head? = some (Action.rejectP 5 e) →
        e = parseError (if failSess.currentError = [] then extractedOutput failSess.currentOutput
                        else failSess.currentError)) :=
  completion_failure_classification failSess _ [] false 9 rfl

/-- C3 counterexample: two queued commands share the text "x"; when the timer
belonging to the second submission (promise 1) fires, the queue entry that is
removed is the FIRST text match — the entry of promise 0, a different
command — while promise 1 stays queued; the rejection still goes to promise 1. -/
def timeoutExSession : Session :=
  { state := SessionState.busy
  , commandQueue :=
      [ { command := "x".data, pid := 0, hasTimeout := true, startTime := 0 }
      , { command := "x".data, pid := 1, hasTimeout := true, startTime := 1 } ]
  , currentOutput := [], currentError := []
  , options := { timeout := 5 } }

theorem timeout_removes_wrong_entry :
    timeoutExSession.commandQueue.map Pending.pid = [0, 1] ∧
    (timeoutFire timeoutExSession ("x".data) 1).1.commandQueue.map Pending.pid = [1] ∧
    (timeoutFire timeoutExSession ("x".data) 1).2 =
      [Action.rejectP 1 (MatlabTimeoutError 5)] :=
  ⟨rfl, rfl, rfl⟩

/-- C3 (amended): when a per-command timer fires, the handler removes exactly
one queue entry — the FIRST entry whose command text equals the timed-out
command's text (which is the timed-out command itself whenever no earlier
entry shares its text) — and rejects the timed-out command's own promise with
a timeout error carrying the configured duration T; the timeout path emits no
process kill. -/
theorem timeout_rejects_with_duration (s : Session) (cmd : List Char) (pid T j : Nat)
    (hT : s.options.timeout = T) (_hT0 : 0 < T)
    (hfind : s.commandQueue.findIdx (fun c => c.command == cmd) = j)
    (hj : j < s.commandQueue.length) :
    (timeoutFire s cmd pid).1.commandQueue = s.commandQueue.eraseIdx j ∧
    (timeoutFire s cmd pid).2 = [Action.rejectP pid (MatlabTimeoutError T)] ∧
    (MatlabTimeoutError T).timeoutMs = some T ∧
    Action.killProc ∉ (timeoutFire s cmd pid).2 := by
  unfold timeoutFire
  rw [hfind, hT]
  refine ⟨by simp [hj], rfl, rfl, by simp⟩

theorem timeout_rejects_with_duration_witness :
    (timeoutFire timeoutExSession ("x".data) 1).1.commandQueue =
      timeoutExSession.commandQueue.eraseIdx 0 ∧
    (timeoutFire timeoutExSession ("x".data) 1).2 =
      [Action.rejectP 1 (MatlabTimeoutError 5)] ∧
    (MatlabTimeoutError 5).timeoutMs = some 5 ∧
    Action.killProc ∉ (timeoutFire timeoutExSession ("x".data) 1).2 :=
  timeout_rejects_with_duration timeoutExSession ("x".data) 1 5 0 rfl (by decide) (by decide)
    (by decide)

/-- C7 counterexample: with an already-aborted signal, both one-shot entry
points still spawn a subprocess (first action) before rejecting — the claim's
"without spawning a subprocess" fails on the code. -/
def abortedOpts : MatlabOptionsM := { signal := some true }

theorem oneshot_abort_still_spawns :
    (executeMatlabScriptStart ("script.m".data) abortedOpts).actions =
      [OneShotAction.spawnProc (buildMatlabArgs ("script.m".data) []),
       OneShotAction.killProc] ∧
    (executeMatlabCommandStart ("1+1".data) abortedOpts).actions =
      [OneShotAction.spawnProc
        (["-nosplash".data, "-nodesktop".data, "-batch".data, "1+1".data]),
       OneShotAction.killProc] :=
  ⟨rfl, rfl⟩

/-- C7 (amended): with an already-aborted signal both one-shot entry points
reject synchronously with the abort error and never write anything to the
process, but they do spawn the subprocess first and immediately kill it. -/
theorem oneshot_abort_rejects_immediately (scriptPath command : List Char)
    (opts : MatlabOptionsM) (h : opts.signal = some true) :
    (executeMatlabScriptStart scriptPath opts).earlyReject = some MatlabAbortError ∧
    (executeMatlabCommandStart command opts).earlyReject = some MatlabAbortError ∧
    (∀ pl, OneShotAction.stdinWrite pl ∉ (executeMatlabScriptStart scriptPath opts).actions) ∧
    (∀ pl, OneShotAction.stdinWrite pl ∉ (executeMatlabCommandStart command opts).actions) ∧
    (executeMatlabScriptStart scriptPath opts).actions =
      [OneShotAction.spawnProc (buildMatlabArgs scriptPath opts.addPath),
       OneShotAction.killProc] := by
  unfold executeMatlabScriptStart executeMatlabCommandStart
  rw [h]
  refine ⟨rfl, rfl, ?_, ?_, rfl⟩ <;> intro pl <;> simp

theorem oneshot_abort_rejects_immediately_witness :
    (executeMatlabScriptStart ("script.m".data) abortedOpts).earlyReject =
      some MatlabAbortError ∧
    (executeMatlabCommandStart ("1+1".data) abortedOpts).earlyReject =
      some MatlabAbortError ∧
    (∀ pl, OneShotAction.stdinWrite pl ∉
      (executeMatlabScriptStart ("script.m".data) abortedOpts).actions) ∧
    (∀ pl, OneShotAction.stdinWrite pl ∉
      (executeMatlabCommandStart ("1+1".data) abortedOpts).actions) ∧
    (executeMatlabScriptStart ("script.m".data) abortedOpts).actions =
      [OneShotAction.spawnProc (buildMatlabArgs ("script.m".data) abortedOpts.addPath),
       OneShotAction.killProc] :=
  oneshot_abort_rejects_immediately ("script.m".data) ("1+1".data) abortedOpts rfl

/-- C9: for a non-aborted one-shot run whose process reports an exit code,
the promise resolves (with the cleaned output, the exit code, the duration
and the collected warnings) if and only if the exit code is 0 and stderr does
not contain "error" case-insensitively; otherwise it rejects with the
classified error built from stderr when non-empty, else from stdout. -/
theorem oneshot_success_classification (code : Int) (stdout stderr : List Char)
    (t0 t1 : Nat) :
    (oneShotOnClose false (some code) stdout stderr t0 t1 =
        OneShotOutcome.resolved
          { output := cleanOutput (trimList stdout), exitCode := code, duration := t1 - t0
          , warnings :=
              if extractWarnings (stderr ++ stdout) ≠ [] then
                some (extractWarnings (stderr ++ stdout))
              else none }
      ↔ (code = 0 ∧ lowerContainsError stderr = false)) ∧
    (¬(code = 0 ∧ lowerContainsError stderr = false) →
      oneShotOnClose false (some code) stdout stderr t0 t1 =
        OneShotOutcome.rejected (parseError (if stderr = [] then stdout else stderr))) := by
  unfold oneShotOnClose
  simp only [if_neg (Bool.false_ne_true), Option.getD_some, Bool.not_eq_true]
  by_cases hcond : code ≠ 0 ∨ lowerContainsError stderr = true
  · rw [if_pos hcond]
    constructor
    · constructor
      · intro he
        cases he
      · rintro ⟨rfl, hf⟩
        rcases hcond with hc | hc
        · exact absurd rfl hc
        · rw [hf] at hc
          cases hc
    · intro _
      rfl
  · rw [if_neg hcond]
    push_neg at hcond
    obtain ⟨hc0, hcf⟩ := hcond
    have hcf' : lowerContainsError stderr = false := Bool.eq_false_iff.2 hcf
    constructor
    · exact ⟨fun _ => ⟨hc0, hcf'⟩, fun _ => rfl⟩
    · intro hcontra
      exact absurd ⟨hc0, hcf'⟩ hcontra

theorem oneshot_success_classification_witness :
    oneShotOnClose false (some 2) ("out".data) ("bad Error".data) 0 1 =
      OneShotOutcome.rejected
        (parseError (if ("bad Error".data : List Char) = [] then "out".data
                     else "bad Error".data)) :=
  (oneshot_success_classification 2 ("out".data) ("bad Error".data) 0 1).2 (by
    intro hc
    exact absurd hc.1 (by decide))

theorem prefix_append_split {α : Type _} {x y m : List α} (h : m <+: x ++ y) :
    m <+: x ∨ ∃ m', m = x ++ m' ∧ m' <+: y := by
  induction x generalizing m with
  | nil => exact Or.inr ⟨m, rfl, by simpa using h⟩
  | cons c x' ih =>
    match m with
    | [] => exact Or.inl (List.nil_prefix)
    | d :: m'' =>
      rw [List.cons_append] at h
      obtain ⟨rfl, h2⟩ := List.cons_prefix_cons.1 h
      rcases ih h2 with h3 | ⟨m', rfl, h4⟩
      · exact Or.inl (List.cons_prefix_cons.2 ⟨rfl, h3⟩)
      · exact Or.inr ⟨m', rfl, h4⟩

/-- A newline-free pattern that occurs in `a ++ suf`, where `suf` starts with
a newline, must occur in `a` or entirely inside `suf`: it cannot straddle the
boundary. -/
theorem infix_append_newline_boundary {m a suf : List Char} (hm : '\n' ∉ m)
    (hsuf : suf.head? = some '\n') (h1 : ¬ m <:+: a) (h2 : ¬ m <:+: suf) :
    ¬ m <:+: a ++ suf := by
  induction a with
  | nil => simpa using h2
  | cons c a' ih =>
    intro h
    rw [List.cons_append] at h
    rcases List.infix_cons_iff.1 h with hp | hi
    · rw [← List.cons_append] at hp
      rcases prefix_append_split hp with hpa | ⟨m', hm', hps⟩
      · exact h1 hpa.isInfix
      · match m', hps with
        | [], _ =>
          rw [List.append_nil] at hm'
          exact h1 (hm' ▸ List.infix_refl _)
        | d :: m'', hps =>
          obtain ⟨suf', rfl⟩ : ∃ suf', suf = '\n' :: suf' := by
            cases suf with
            | nil => cases hsuf
            | cons u v =>
              obtain rfl : u = '\n' := by simpa using hsuf
              exact ⟨v, rfl⟩
          obtain ⟨rfl, _⟩ := List.cons_prefix_cons.1 hps
          exact hm (by simp [hm'])
    · exact (ih (fun hma => h1 (List.infix_cons hma))) hi

/-- C10: all stdin writes issued by the serializer for a queued command are
the command text followed by the fixed sentinel suffix, which prints the
success marker and nowhere contains the error marker; hence the written
payload contains the error marker only if the user's command text itself
does, and the framer's error branch fires only when the accumulated output
contains the error marker (and not the success marker). -/
theorem serializer_sends_only_success_sentinel :
    (∀ (s : Session) (p : Pending) (rest : List Pending),
      s.commandQueue = p :: rest → s.state = SessionState.ready →
      (processQueue s).2 = [Action.stdinWrite (p.command ++ sentinelSuffix)]) ∧
    COMMAND_COMPLETE_MARKER <:+: sentinelSuffix ∧
    ¬ COMMAND_ERROR_MARKER <:+: sentinelSuffix ∧
    (∀ cmd, COMMAND_ERROR_MARKER <:+: wrappedCommand cmd →
      COMMAND_ERROR_MARKER <:+: cmd) ∧
    (∀ buf, completionSignal buf = some true →
      containsSub buf COMMAND_ERROR_MARKER = true ∧
      containsSub buf COMMAND_COMPLETE_MARKER = false) := by
  refine ⟨?_, by decide, by decide, ?_, ?_⟩
  · intro s p rest hq hready
    unfold processQueue
    rw [if_pos hready, hq]
    rfl
  · intro cmd h
    by_contra hc
    exact infix_append_newline_boundary (by decide) (by decide) hc (by decide) h
  · intro buf h
    unfold completionSignal at h
    by_cases h1 : containsSub buf COMMAND_COMPLETE_MARKER = true
    · rw [if_pos h1] at h
      cases h
    · rw [if_neg h1] at h
      by_cases h2 : containsSub buf COMMAND_ERROR_MARKER = true
      · exact ⟨h2, Bool.eq_false_iff.2 h1⟩
      · rw [if_neg h2] at h
        cases h

/-- Witness for C10: a concrete ready session with one queued command, and
the error branch fired on a buffer that is exactly the error marker. -/
def readySession : Session :=
  { state := SessionState.ready
  , commandQueue := [{ command := "a=1;".data, pid := 0, hasTimeout := true, startTime := 0 }]
  , currentOutput := [], currentError := []
  , options := {} }

theorem serializer_sends_only_success_sentinel_witness :
    (processQueue readySession).2 =
      [Action.stdinWrite (("a=1;".data) ++ sentinelSuffix)] ∧
    (COMMAND_ERROR_MARKER <:+: COMMAND_ERROR_MARKER) ∧
    (containsSub COMMAND_ERROR_MARKER COMMAND_ERROR_MARKER = true ∧
      containsSub COMMAND_ERROR_MARKER COMMAND_COMPLETE_MARKER = false) :=
  ⟨serializer_sends_only_success_sentinel.1 readySession _ [] rfl rfl,
   serializer_sends_only_success_sentinel.2.2.2.1 COMMAND_ERROR_MARKER
     (by decide),
   serializer_sends_only_success_sentinel.2.2.2.2 COMMAND_ERROR_MARKER
     (by decide)⟩

@[simp] theorem settledIds_nil : settledIds [] = [] := rfl

@[simp] theorem settledIds_cons_write (pl : List Char) (l : List Action) :
    settledIds (Action.stdinWrite pl :: l) = settledIds l := rfl

@[simp] theorem settledIds_cons_resolve (pid : Nat) (r : MatlabResultR) (l : List Action) :
    settledIds (Action.resolveP pid r :: l) = pid :: settledIds l := rfl

@[simp] theorem settledIds_cons_reject (pid : Nat) (e : MatlabErr) (l : List Action) :
    settledIds (Action.rejectP pid e :: l) = pid :: settledIds l := rfl

theorem run_spec (s : Session) (cmd : List Char) (pid now : Nat) :
    ((run s cmd pid now).2.2 =
        RunOutcome.thrown ("Session is ".data ++ sessionStateName s.state) ∧
      (run s cmd pid now).1 = s ∧ (run s cmd pid now).2.1 = []) ∨
    ((run s cmd pid now).2.2 = RunOutcome.pending pid ∧
      (run s cmd pid now).1.commandQueue =
        s.commandQueue ++
          [{ command := cmd, pid := pid, hasTimeout := decide (0 < s.options.timeout)
           , startTime := now }] ∧
      settledIds (run s cmd pid now).2.1 = []) := by
  unfold run
  by_cases h : s.state = SessionState.closed ∨ s.state = SessionState.error
  · rw [if_pos h]
    exact Or.inl ⟨rfl, rfl, rfl⟩
  · rw [if_neg h]
    right
    dsimp only
    split
    · refine ⟨rfl, ?_, ?_⟩
      · rw [processQueue_commandQueue]
      · exact settledIds_processQueue _
    · exact ⟨rfl, rfl, rfl⟩

theorem processCommandComplete_spec (s : Session) (b : Bool) (now : Nat) :
    (s.commandQueue = [] ∧ processCommandComplete s b now = (s, [])) ∨
    (∃ p rest, s.commandQueue = p :: rest ∧
      (processCommandComplete s b now).1.commandQueue = rest ∧
      settledIds (processCommandComplete s b now).2 = [p.pid]) := by
  rcases hq : s.commandQueue with _ | ⟨p, rest⟩
  · left
    refine ⟨rfl, ?_⟩
    unfold processCommandComplete
    rw [hq]
  · right
    refine ⟨p, rest, rfl, ?_, ?_⟩
    · unfold processCommandComplete
      rw [hq]
      exact processQueue_commandQueue _
    · unfold processCommandComplete
      rw [hq]
      by_cases hc : (b || lowerContainsError s.currentError) = true
      · simp [hc, settledIds_processQueue]
      · simp [hc, settledIds_processQueue]

/-- Trace invariant: with `n` promises allocated so far, the settled promise
identities are exactly 0, 1, …, m−1 in that order, and the queued ones are
m, m+1, …, n−1 in submission order. -/
def TraceInv (sn : Session × Nat) (acts : List Action) : Prop :=
  ∃ m, m ≤ sn.2 ∧ settledIds acts = List.range m ∧
    sn.1.commandQueue.map Pending.pid = List.range' m (sn.2 - m)

theorem traceStep_inv (acc : (Session × Nat) × List Action) (ev : SessEvent)
    (h : TraceInv acc.1 acc.2) : TraceInv (traceStep acc ev).1 (traceStep acc ev).2 := by
  obtain ⟨⟨s, n⟩, acts₀⟩ := acc
  obtain ⟨m, hmn, hset, hqueue⟩ := h
  dsimp only at hmn hset hqueue
  cases ev with
  | runE cmd now =>
    have hspec := run_spec s cmd n now
    rcases hr : run s cmd n now with ⟨s', acts, out⟩
    rw [hr] at hspec
    simp only at hspec
    rcases hspec with ⟨hout, hs, hacts⟩ | ⟨hout, hq', hacts⟩
    · subst hout
      refine ⟨m, ?_, ?_, ?_⟩
      · simp only [traceStep, stepEvent, hr]
        exact hmn
      · simp only [traceStep, stepEvent, hr]
        rw [settledIds_append, hset, hacts]
        simp
      · simp only [traceStep, stepEvent, hr]
        rw [hs]
        exact hqueue
    · subst hout
      refine ⟨m, ?_, ?_, ?_⟩
      · simp only [traceStep, stepEvent, hr]
        omega
      · simp only [traceStep, stepEvent, hr]
        rw [settledIds_append, hset, hacts]
        simp
      · simp only [traceStep, stepEvent, hr]
        rw [hq']
        have h1 : n + 1 - m = (n - m) + 1 := by omega
        have h2 : m + (n - m) = n := by omega
        rw [List.map_append, hqueue, h1, List.range'_1_concat, h2]
        rfl
  | outE chunk now =>
    simp only [traceStep, stepEvent]
    unfold handleOutput
    dsimp only
    rcases hcs : completionSignal (s.currentOutput ++ chunk) with _ | b
    · dsimp only
      refine ⟨m, hmn, ?_, hqueue⟩
      rw [settledIds_append, hset]
      simp
    · dsimp only
      rcases processCommandComplete_spec
          { s with currentOutput := s.currentOutput ++ chunk } b now with
        ⟨hnil, heq⟩ | ⟨p, rest, hq1, hq2, hacts⟩
      · rw [heq]
        refine ⟨m, hmn, ?_, hqueue⟩
        rw [settledIds_append, hset]
        simp
      · have hq0 : s.commandQueue = p :: rest := hq1
        rw [hq0, List.map_cons] at hqueue
        rcases hk : n - m with _ | k
        · rw [hk] at hqueue
          cases hqueue
        · rw [hk, List.range'_succ] at hqueue
          injection hqueue with hpid hrest
          refine ⟨m + 1, by omega, ?_, ?_⟩
          · rw [settledIds_append, hset, hacts, hpid, ← List.range_succ]
          · dsimp only
            rw [hq2, hrest]
            congr 1
            omega
  | errE chunk =>
    refine ⟨m, hmn, ?_, hqueue⟩
    simp only [traceStep, stepEvent]
    rw [settledIds_append, hset]
    simp

theorem foldl_traceStep_inv (evs : List SessEvent) :
    ∀ acc, TraceInv acc.1 acc.2 →
      TraceInv (evs.foldl traceStep acc).1 (evs.foldl traceStep acc).2 := by
  induction evs with
  | nil => exact fun acc h => h
  | cons e es ih => exact fun acc h => ih _ (traceStep_inv acc e h)

/-- C1: (a) the serializer writes to stdin only from the ready state and only
the head of the queue (one wrapped command per write); (b) over any trace of
run submissions and stdout/stderr chunks from a fresh session, the settled
promises are exactly 0, …, m−1 in that order — i.e. commands complete one at
a time in strict submission (FIFO) order. -/
theorem commands_serialized_fifo :
    (∀ s : Session, (processQueue s).2 ≠ [] →
      s.state = SessionState.ready ∧
      ∃ p rest, s.commandQueue = p :: rest ∧
        (processQueue s).2 = [Action.stdinWrite (wrappedCommand p.command)]) ∧
    (∀ (opts : SessionOptions) (evs : List SessEvent),
      ∃ m, settledIds (runTrace opts evs).2 = List.range m) := by
  constructor
  · intro s h
    by_cases hst : s.state = SessionState.ready
    · rcases hq : s.commandQueue with _ | ⟨p, rest⟩
      · exfalso
        apply h
        unfold processQueue
        rw [if_pos hst, hq]
      · refine ⟨hst, p, rest, rfl, ?_⟩
        unfold processQueue
        rw [if_pos hst, hq]
    · exfalso
      apply h
      unfold processQueue
      rw [if_neg hst]
  · intro opts evs
    have hinit : TraceInv (mkSession opts, 0) [] :=
      ⟨0, Nat.le_refl 0, rfl, rfl⟩
    obtain ⟨m, _, hset, _⟩ := foldl_traceStep_inv evs ((mkSession opts, 0), []) hinit
    exact ⟨m, hset⟩

/-- Witness for C1: a ready session with one queued command. -/
def fifoSession : Session :=
  { state := SessionState.ready
  , commandQueue := [{ command := "w".data, pid := 7, hasTimeout := true, startTime := 0 }]
  , currentOutput := [], currentError := []
  , options := {} }

theorem commands_serialized_fifo_witness :
    (fifoSession.state = SessionState.ready ∧
      ∃ p rest, fifoSession.commandQueue = p :: rest ∧
        (processQueue fifoSession).2 = [Action.stdinWrite (wrappedCommand p.command)]) ∧
    (∃ m, settledIds (runTrace {}
        [SessEvent.runE ("a".data) 0,
         SessEvent.outE ("done\n__NODE_MATLAB_CMD_COMPLETE__\n".data) 4]).2 = List.range m) :=
  ⟨commands_serialized_fifo.1 fifoSession (by decide),
   commands_serialized_fifo.2 {} _⟩

end NodeMatlab
